import Mathlib

/-
Verification of the composable processing-pipeline subsystem of
42_Python_Module_05 (nexus_pipeline.py): stages, pipelines with
run/error metrics, data adapters, and the Nexus manager with its
registry, per-pipeline stats, and cross-pipeline chaining.

The embedding is a direct translation of src/ex2/nexus_pipeline.py and
src/solution/ex2/nexus_pipeline.py.  Python values exchanged between
stages are modelled by the inductive `Value`; exceptions by `PyError`
together with `Except`; in-place mutation of pipeline/manager objects by
explicit state passing (each operation returns the updated object).
Python dicts are modelled as association lists with insertion order and
last-write-wins update, matching dict semantics for the keys used here.
-/

set_option autoImplicit false

namespace Nexus

/-- Python values flowing through the pipeline.  Numeric constants occur
only as canned adapter data and are only ever stringified, so they are
carried by their decimal literal (`numLit "23.5"` is the float `23.5`,
whose `str()`/`repr()` is exactly that literal). -/
inductive Value where
  | none : Value
  | str : String → Value
  | numLit : String → Value
  | list : List Value → Value
  | dict : List (String × Value) → Value

/-- Python exceptions raised by this module.  `exc` is a plain
`Exception(msg)`; `keyError k` a `KeyError` on key `k`; `typeError` a
`TypeError` from subscripting a non-dict (Python's message text varies
with the operand type, which the claims never inspect). -/
inductive PyError where
  | exc : String → PyError
  | keyError : String → PyError
  | typeError : PyError
deriving DecidableEq

mutual

/-- Python `repr()` restricted to `Value`. -/
def pyRepr : Value → String
  | Value.none => "None"
  | Value.str s => "\x27" ++ s ++ "\x27"
  | Value.numLit s => s
  | Value.list xs => "[" ++ pyReprList xs ++ "]"
  | Value.dict d => "\x7b" ++ pyReprDict d ++ "\x7d"

/-- Comma-separated `repr()`s of the elements of a Python list. -/
def pyReprList : List Value → String
  | [] => ""
  | [v] => pyRepr v
  | v :: vs => pyRepr v ++ ", " ++ pyReprList vs

/-- Comma-separated `repr()`s of the entries of a Python dict. -/
def pyReprDict : List (String × Value) → String
  | [] => ""
  | [(k, v)] => "\x27" ++ k ++ "\x27: " ++ pyRepr v
  | (k, v) :: kvs => "\x27" ++ k ++ "\x27: " ++ pyRepr v ++ ", " ++ pyReprDict kvs

end

/-- Python `str()` restricted to `Value`: like `repr()` except that a
string is rendered without quotes. -/
def pyStr : Value → String
  | Value.str s => s
  | v => pyRepr v

/-- The Python check `data is None`. -/
def Value.isNone : Value → Bool
  | Value.none => true
  | _ => false

/-- Python dict lookup `d[key]` (as an `Option`), first-match on an
association list whose keys are unique. -/
def dictLookup {α : Type} : List (String × α) → String → Option α
  | [], _ => Option.none
  | (k, v) :: rest, key => if k = key then some v else dictLookup rest key

/-- Python dict update `d[key] = v`: replaces in place (keeping the
key's position) when present, appends otherwise — dict insertion-order
semantics. -/
def dictSet {α : Type} : List (String × α) → String → α → List (String × α)
  | [], key, v => [(key, v)]
  | (k, w) :: rest, key, v =>
    if k = key then (k, v) :: rest else (k, w) :: dictSet rest key v

/-- The closed set of stage classes defined in the module; dynamic
dispatch on `process` is modelled by `Stage.process` below. -/
inductive Stage where
  | base
  | input
  | transform
  | output
  | sensorStream
  | transactionStream
  | eventStream
deriving DecidableEq

/-- Source `InputStage.process`: wraps raw input,
`return \x7b"data": data, "status": "input_ok"\x7d`. -/
def InputStage.process (data : Value) : Except PyError Value :=
  Except.ok (Value.dict [("data", data), ("status", Value.str "input_ok")])

/-- Source `TransformStage.process`: if `isinstance(data, dict) and "data" in data`
then `value = data["data"]` else `value = data; data = \x7b"data": value\x7d`;
then `data["data"] = f"processed(\x7bvalue\x7d)"; return data`. -/
def TransformStage.process (data : Value) : Except PyError Value :=
  match data with
  | Value.dict d =>
    match dictLookup d "data" with
    | some value =>
      Except.ok (Value.dict (dictSet d "data"
        (Value.str ("processed(" ++ pyStr value ++ ")"))))
    | Option.none =>
      Except.ok (Value.dict [("data",
        Value.str ("processed(" ++ pyStr (Value.dict d) ++ ")"))])
  | v =>
    Except.ok (Value.dict [("data",
      Value.str ("processed(" ++ pyStr v ++ ")"))])

/-- Source `OutputStage.process`: `return f"Output: \x7bdata['data']\x7d"`; raises
`KeyError` when the dict has no `"data"` key and `TypeError` when the
value is not a dict. -/
def OutputStage.process (data : Value) : Except PyError Value :=
  match data with
  | Value.dict d =>
    match dictLookup d "data" with
    | some v => Except.ok (Value.str ("Output: " ++ pyStr v))
    | Option.none => Except.error (PyError.keyError "data")
  | _ => Except.error PyError.typeError

/-- Source `SensorStreamStage.process`: canned summary string. -/
def SensorStreamStage.process (_ : Value) : Except PyError Value :=
  Except.ok (Value.str "Sensor analysis: 3 readings processed, avg temp: 22.5°C")

/-- Source `TransactionStreamStage.process`: canned summary string. -/
def TransactionStreamStage.process (_ : Value) : Except PyError Value :=
  Except.ok (Value.str "Transaction analysis: 3 operations, net flow: +25 units")

/-- Source `EventStreamStage.process`: canned summary string. -/
def EventStreamStage.process (_ : Value) : Except PyError Value :=
  Except.ok (Value.str "Event analysis: 3 events, 1 error detected")

/-- Dynamic dispatch of `stage.process(data)` over the concrete stage
classes.  The base `Stage` raises `Exception("Stage must implement process()")`. -/
def Stage.process : Stage → Value → Except PyError Value
  | Stage.base, _ => Except.error (PyError.exc "Stage must implement process()")
  | Stage.input, data => InputStage.process data
  | Stage.transform, data => TransformStage.process data
  | Stage.output, data => OutputStage.process data
  | Stage.sensorStream, data => SensorStreamStage.process data
  | Stage.transactionStream, data => TransactionStreamStage.process data
  | Stage.eventStream, data => EventStreamStage.process data

/-- The pipeline's `metrics` dict `\x7b"runs": 0, "errors": 0\x7d`, with its
two fixed keys as fields. -/
structure Metrics where
  runs : Nat
  errors : Nat
deriving DecidableEq

/-- Source `ProcessingPipeline` state: `pipeline_id`, ordered `stages`, `metrics`. -/
structure ProcessingPipeline where
  pipeline_id : String
  stages : List Stage
  metrics : Metrics
deriving DecidableEq

/-- Source `ProcessingPipeline.__init__`: empty stage list, both counters zero. -/
def ProcessingPipeline.init (pipeline_id : String) : ProcessingPipeline :=
  ⟨pipeline_id, [], ⟨0, 0⟩⟩

/-- Source `ProcessingPipeline.add_stage`: appends the stage.  The source's
`isinstance(stage, Stage)` guard is always true here because the
argument type is already `Stage`. -/
def ProcessingPipeline.add_stage (p : ProcessingPipeline) (stage : Stage) :
    ProcessingPipeline :=
  { p with stages := p.stages ++ [stage] }

/-- The `for stage in self.stages: data = stage.process(data)` loop of
`ProcessingPipeline.run`: folds the data through the stages in order,
stopping at the first raised exception. -/
def runStages : List Stage → Value → Except PyError Value
  | [], data => Except.ok data
  | stage :: rest, data =>
    match stage.process data with
    | Except.ok d => runStages rest d
    | Except.error e => Except.error e

/-- Source `ProcessingPipeline.run`: increments `runs` before executing, folds
the data through the stages, and on an exception increments `errors` and
re-raises.  Returns the result together with the mutated pipeline. -/
def ProcessingPipeline.run (p : ProcessingPipeline) (data : Value) :
    Except PyError Value × ProcessingPipeline :=
  let p1 := { p with metrics := { p.metrics with runs := p.metrics.runs + 1 } }
  match runStages p.stages data with
  | Except.ok d => (Except.ok d, p1)
  | Except.error e =>
    (Except.error e,
     { p1 with metrics := { p1.metrics with errors := p1.metrics.errors + 1 } })

/-- Source `ProcessingPipeline.process` (solution variant): the default
processing entry point delegates to `run`. -/
def ProcessingPipeline.process (p : ProcessingPipeline) (data : Value) :
    Except PyError Value × ProcessingPipeline :=
  p.run data

/-- Source `JSONAdapter.__init__` (solution variant): a pipeline pre-populated
with `InputStage`, `TransformStage`, `OutputStage`. -/
def JSONAdapter.init (pipeline_id : String) : ProcessingPipeline :=
  (((ProcessingPipeline.init pipeline_id).add_stage Stage.input).add_stage
    Stage.transform).add_stage Stage.output

/-- Source `JSONAdapter.read`: `return \x7b"sensor": "temp", "value": 23.5\x7d`. -/
def JSONAdapter.read : Value :=
  Value.dict [("sensor", Value.str "temp"), ("value", Value.numLit "23.5")]

/-- Source `JSONAdapter.process` (polymorphic override):
`json_data = self.read() if data is None else data;
return f"Processed JSON data: \x7bjson_data\x7d"`.  The pipeline object
(`self`) is returned unchanged: the override touches neither the stages
nor the metrics. -/
def JSONAdapter.process (self : ProcessingPipeline) (data : Value) :
    Except PyError Value × ProcessingPipeline :=
  let json_data := if data.isNone then JSONAdapter.read else data
  (Except.ok (Value.str ("Processed JSON data: " ++ pyStr json_data)), self)

/-- Source `CSVAdapter.__init__` (solution variant): same fixed stage sequence. -/
def CSVAdapter.init (pipeline_id : String) : ProcessingPipeline :=
  (((ProcessingPipeline.init pipeline_id).add_stage Stage.input).add_stage
    Stage.transform).add_stage Stage.output

/-- Source `CSVAdapter.read`: `return "user,action,timestamp"`. -/
def CSVAdapter.read : Value :=
  Value.str "user,action,timestamp"

/-- Source `CSVAdapter.process` (polymorphic override): analogous to
`JSONAdapter.process`. -/
def CSVAdapter.process (self : ProcessingPipeline) (data : Value) :
    Except PyError Value × ProcessingPipeline :=
  let csv_data := if data.isNone then CSVAdapter.read else data
  (Except.ok (Value.str ("Processed CSV data: " ++ pyStr csv_data)), self)

/-- Source `StreamAdapter.__init__` (solution variant): same fixed stage sequence. -/
def StreamAdapter.init (pipeline_id : String) : ProcessingPipeline :=
  (((ProcessingPipeline.init pipeline_id).add_stage Stage.input).add_stage
    Stage.transform).add_stage Stage.output

/-- Source `StreamAdapter.read`: `return ["22.1", "22.3", "22.0"]`. -/
def StreamAdapter.read : Value :=
  Value.list [Value.str "22.1", Value.str "22.3", Value.str "22.0"]

/-- Source `StreamAdapter.process` (polymorphic override): analogous to
`JSONAdapter.process`. -/
def StreamAdapter.process (self : ProcessingPipeline) (data : Value) :
    Except PyError Value × ProcessingPipeline :=
  let stream_data := if data.isNone then StreamAdapter.read else data
  (Except.ok (Value.str ("Processed Stream data: " ++ pyStr stream_data)), self)

/-- Source `NexusManager` state: registry `pipelines` and `stats`, a
`defaultdict(int)` (absent keys read as `0` via `statsGet`). -/
structure NexusManager where
  pipelines : List (String × ProcessingPipeline)
  stats : List (String × Nat)
deriving DecidableEq

/-- Source `NexusManager.__init__`: empty registry, empty stats. -/
def NexusManager.init : NexusManager :=
  ⟨[], []⟩

/-- Reading `stats[k]` from the `defaultdict(int)`: `0` for unseen keys. -/
def statsGet (stats : List (String × Nat)) (k : String) : Nat :=
  (dictLookup stats k).getD 0

/-- Source `NexusManager.register_pipeline`: keyed by the pipeline's own id,
last registration wins. -/
def NexusManager.register_pipeline (m : NexusManager) (p : ProcessingPipeline) :
    NexusManager :=
  { m with pipelines := dictSet m.pipelines p.pipeline_id p }

/-- Source `NexusManager.execute` (src/ex2 variant):
`pipeline = self.pipelines[pipeline_id]` (a `KeyError` when absent);
`result = pipeline.run(data)`; `self.stats[pipeline_id] += 1` only after
a successful run; the pipeline object is mutated in place in both
branches, which the registry observes. -/
def NexusManager.execute (m : NexusManager) (pipeline_id : String) (data : Value) :
    Except PyError Value × NexusManager :=
  match dictLookup m.pipelines pipeline_id with
  | Option.none => (Except.error (PyError.keyError pipeline_id), m)
  | some pipeline =>
    match pipeline.run data with
    | (Except.ok result, p1) =>
      (Except.ok result,
       { pipelines := dictSet m.pipelines pipeline_id p1,
         stats := dictSet m.stats pipeline_id (statsGet m.stats pipeline_id + 1) })
    | (Except.error e, p1) =>
      (Except.error e, { m with pipelines := dictSet m.pipelines pipeline_id p1 })

/-- Source `NexusManager.chain`: `for pid in pipeline_ids: data = self.execute(pid, data)`;
the loop aborts at the first exception, which propagates. -/
def NexusManager.chain (m : NexusManager) (pipeline_ids : List String) (data : Value) :
    Except PyError Value × NexusManager :=
  match pipeline_ids with
  | [] => (Except.ok data, m)
  | pid :: rest =>
    match m.execute pid data with
    | (Except.ok d, m1) => m1.chain rest d
    | (Except.error e, m1) => (Except.error e, m1)

/-- The metrics invariant of the spec: `errors ≤ runs`. -/
def metricsInv (p : ProcessingPipeline) : Prop :=
  p.metrics.errors ≤ p.metrics.runs

instance (p : ProcessingPipeline) : Decidable (metricsInv p) := by
  unfold metricsInv; infer_instance

/-- Every pipeline registered in the manager satisfies `metricsInv`. -/
def managerInv (m : NexusManager) : Prop :=
  ∀ pid p, dictLookup m.pipelines pid = some p → metricsInv p

/-- The "Pipeline Chaining Demo" configuration of `main()`: pipelines
"A", "B", "C", each holding one `TransformStage`, registered in order. -/
def demoChainManager : NexusManager :=
  ((NexusManager.init.register_pipeline
      ((ProcessingPipeline.init "A").add_stage Stage.transform)).register_pipeline
    ((ProcessingPipeline.init "B").add_stage Stage.transform)).register_pipeline
    ((ProcessingPipeline.init "C").add_stage Stage.transform)

/-- A small configuration in the style of the "Error Recovery Test" of
`main()`: pipeline "bad" holds the base `Stage` (whose `process` always
raises), and a healthy Transform-only pipeline "C" is registered after it. -/
def errorDemoManager : NexusManager :=
  (NexusManager.init.register_pipeline
      ((ProcessingPipeline.init "bad").add_stage Stage.base)).register_pipeline
    ((ProcessingPipeline.init "C").add_stage Stage.transform)

/-! ### Helper lemmas about dict operations -/

theorem dictLookup_dictSet_self {α : Type} (d : List (String × α)) (k : String) (v : α) :
    dictLookup (dictSet d k v) k = some v := by
  induction d with
  | nil => simp [dictSet, dictLookup]
  | cons hd tl ih =>
    obtain ⟨k1, v1⟩ := hd
    by_cases h : k1 = k
    · simp [dictSet, dictLookup, h]
    · simp [dictSet, dictLookup, h, ih]

theorem dictLookup_dictSet_ne {α : Type} (d : List (String × α)) (k q : String) (v : α)
    (h : q ≠ k) : dictLookup (dictSet d k v) q = dictLookup d q := by
  induction d with
  | nil => simp [dictSet, dictLookup, Ne.symm h]
  | cons hd tl ih =>
    obtain ⟨k1, v1⟩ := hd
    by_cases h1 : k1 = k
    · subst h1
      simp [dictSet, dictLookup, Ne.symm h]
    · by_cases h2 : k1 = q
      · simp [dictSet, dictLookup, h1, h2, h]
      · simp [dictSet, dictLookup, h1, h2, ih]

theorem dictLookup_dictSet_cases {α : Type} (d : List (String × α)) (k q : String)
    (v w : α) (h : dictLookup (dictSet d k v) q = some w) :
    (q = k ∧ w = v) ∨ dictLookup d q = some w := by
  by_cases hq : q = k
  · subst hq
    rw [dictLookup_dictSet_self] at h
    exact Or.inl ⟨rfl, (Option.some.inj h).symm⟩
  · rw [dictLookup_dictSet_ne _ _ _ _ hq] at h
    exact Or.inr h

theorem statsGet_dictSet_ne (stats : List (String × Nat)) (k q : String) (v : Nat)
    (h : q ≠ k) : statsGet (dictSet stats k v) q = statsGet stats q := by
  unfold statsGet
  rw [dictLookup_dictSet_ne _ _ _ _ h]

/-! ### Helper lemmas about runStages and run -/

theorem runStages_append_ok (pre : List Stage) (rest : List Stage) (data dk : Value)
    (h : runStages pre data = Except.ok dk) :
    runStages (pre ++ rest) data = runStages rest dk := by
  induction pre generalizing data with
  | nil =>
    simp only [runStages] at h
    injection h with h1
    subst h1
    rfl
  | cons s pre1 ih =>
    cases hs : s.process data with
    | ok d =>
      simp only [runStages, hs] at h
      rw [List.cons_append]
      simp only [runStages, hs]
      exact ih d h
    | error e =>
      simp only [runStages, hs] at h
      exact absurd h (by simp)

theorem runStages_cons_error (s : Stage) (post : List Stage) (d : Value) (e : PyError)
    (h : s.process d = Except.error e) :
    runStages (s :: post) d = Except.error e := by
  simp [runStages, h]

theorem run_of_runStages_ok (p : ProcessingPipeline) (data r : Value)
    (h : runStages p.stages data = Except.ok r) :
    p.run data = (Except.ok r,
      { p with metrics := ⟨p.metrics.runs + 1, p.metrics.errors⟩ }) := by
  simp only [ProcessingPipeline.run, h]

theorem run_of_runStages_error (p : ProcessingPipeline) (data : Value) (e : PyError)
    (h : runStages p.stages data = Except.error e) :
    p.run data = (Except.error e,
      { p with metrics := ⟨p.metrics.runs + 1, p.metrics.errors + 1⟩ }) := by
  simp only [ProcessingPipeline.run, h]

theorem run_preserves_metricsInv (p : ProcessingPipeline) (data : Value)
    (h : metricsInv p) : metricsInv (p.run data).2 := by
  unfold metricsInv at h ⊢
  unfold ProcessingPipeline.run
  cases runStages p.stages data with
  | ok d => simpa using Nat.le_succ_of_le h
  | error e => simpa using Nat.succ_le_succ h

/-! ### Helper lemmas about execute and chain -/

theorem execute_preserves_other (m : NexusManager) (pid q : String) (data : Value)
    (h : q ≠ pid) :
    dictLookup (m.execute pid data).2.pipelines q = dictLookup m.pipelines q ∧
    statsGet (m.execute pid data).2.stats q = statsGet m.stats q := by
  cases hp : dictLookup m.pipelines pid with
  | none =>
    simp [NexusManager.execute, hp]
  | some p =>
    simp only [NexusManager.execute, hp]
    cases hr : p.run data with
    | mk r p1 =>
      cases r with
      | ok d =>
        exact ⟨dictLookup_dictSet_ne _ _ _ _ h, statsGet_dictSet_ne _ _ _ _ h⟩
      | error e =>
        exact ⟨dictLookup_dictSet_ne _ _ _ _ h, rfl⟩

theorem chain_preserves_other (pids : List String) (m : NexusManager) (data : Value)
    (q : String) (h : q ∉ pids) :
    dictLookup (m.chain pids data).2.pipelines q = dictLookup m.pipelines q ∧
    statsGet (m.chain pids data).2.stats q = statsGet m.stats q := by
  induction pids generalizing m data with
  | nil => exact ⟨rfl, rfl⟩
  | cons pid rest ih =>
    have hq1 : q ≠ pid := fun hh => h (hh ▸ List.mem_cons_self pid rest)
    have hq2 : q ∉ rest := fun hh => h (List.mem_cons_of_mem pid hh)
    have he := execute_preserves_other m pid q data hq1
    simp only [NexusManager.chain]
    cases hx : m.execute pid data with
    | mk r m1 =>
      rw [hx] at he
      cases r with
      | ok d =>
        have hc := ih m1 d hq2
        exact ⟨hc.1.trans he.1, hc.2.trans he.2⟩
      | error e =>
        exact he

theorem chain_append_ok (pre : List String) (rest : List String) (m m1 : NexusManager)
    (data d1 : Value) (h : m.chain pre data = (Except.ok d1, m1)) :
    m.chain (pre ++ rest) data = m1.chain rest d1 := by
  induction pre generalizing m data with
  | nil =>
    simp only [NexusManager.chain] at h
    injection h with h1 h2
    injection h1 with h3
    subst h3
    subst h2
    rfl
  | cons pid pre1 ih =>
    rw [List.cons_append]
    simp only [NexusManager.chain] at h ⊢
    cases hx : m.execute pid data with
    | mk r m2 =>
      rw [hx] at h
      cases r with
      | ok d => exact ih m2 d h
      | error e =>
        exact absurd (congrArg Prod.fst h) (by simp)

/-! ### Helper lemmas about the metrics invariant -/

theorem register_preserves_managerInv (m : NexusManager) (p : ProcessingPipeline)
    (hm : managerInv m) (hp : metricsInv p) :
    managerInv (m.register_pipeline p) := by
  intro q w hw
  rcases dictLookup_dictSet_cases _ _ _ _ _ hw with ⟨hq, hwp⟩ | hold
  · exact hwp ▸ hp
  · exact hm q w hold

theorem execute_preserves_managerInv (m : NexusManager) (pid : String) (data : Value)
    (hm : managerInv m) : managerInv (m.execute pid data).2 := by
  cases hp : dictLookup m.pipelines pid with
  | none =>
    simp only [NexusManager.execute, hp]
    exact hm
  | some p =>
    have hpi : metricsInv p := hm pid p hp
    have hrun := run_preserves_metricsInv p data hpi
    simp only [NexusManager.execute, hp]
    cases hr : p.run data with
    | mk r p1 =>
      rw [hr] at hrun
      cases r with
      | ok d =>
        intro q w hw
        have hw1 : dictLookup (dictSet m.pipelines pid p1) q = some w := hw
        rcases dictLookup_dictSet_cases _ _ _ _ _ hw1 with ⟨hq, hwp⟩ | hold
        · subst hwp; exact hrun
        · exact hm q w hold
      | error e =>
        intro q w hw
        have hw1 : dictLookup (dictSet m.pipelines pid p1) q = some w := hw
        rcases dictLookup_dictSet_cases _ _ _ _ _ hw1 with ⟨hq, hwp⟩ | hold
        · subst hwp; exact hrun
        · exact hm q w hold

theorem chain_preserves_managerInv (pids : List String) (m : NexusManager) (data : Value)
    (hm : managerInv m) : managerInv (m.chain pids data).2 := by
  induction pids generalizing m data with
  | nil => exact hm
  | cons pid rest ih =>
    simp only [NexusManager.chain]
    have he := execute_preserves_managerInv m pid data hm
    cases hx : m.execute pid data with
    | mk r m1 =>
      rw [hx] at he
      cases r with
      | ok d => exact ih m1 d he
      | error e => exact he


theorem statsGet_dictSet_self (stats : List (String × Nat)) (k : String) (v : Nat) :
    statsGet (dictSet stats k v) k = v := by
  unfold statsGet
  rw [dictLookup_dictSet_self]
  rfl

/-! ### Claim theorems -/

/-- C1 (counterexample): the claim predicts that an Adapter called with
`None` folds `read()` through the inherited stage sequence and returns
the Output-format string.  At the concrete input `CSVAdapter("transaction")`
with `None` data, `process` returns
`"Processed CSV data: user,action,timestamp"`, while folding `read()`
through the installed stages yields
`"Output: processed(user,action,timestamp)"` — the two differ, so the
override never runs the stages. -/
theorem csvadapter_process_bypasses_stage_fold :
    (CSVAdapter.process (CSVAdapter.init "transaction") Value.none).1 ≠
      runStages (CSVAdapter.init "transaction").stages CSVAdapter.read := by
  have h1 : (CSVAdapter.process (CSVAdapter.init "transaction") Value.none).1 =
      Except.ok (Value.str "Processed CSV data: user,action,timestamp") := rfl
  have h2 : runStages (CSVAdapter.init "transaction").stages CSVAdapter.read =
      Except.ok (Value.str "Output: processed(user,action,timestamp)") := rfl
  rw [h1, h2]
  intro h
  injection h with h3
  injection h3 with h4
  exact absurd h4 (by decide)

/-- C1 (amended): for every Adapter (JSONAdapter, CSVAdapter,
StreamAdapter), calling its processing entry point with `None` data
invokes its own `read()` and with non-`None` data bypasses `read()` and
uses the supplied data directly; in both branches the result is the
adapter-specific string `"Processed <KIND> data: <str(source)>"`,
produced without folding the source through the installed stage
sequence, and the pipeline object (stages and metrics) is returned
unchanged. -/
theorem adapter_process_amended (self : ProcessingPipeline) (data : Value)
    (h : data.isNone = false) :
    (JSONAdapter.process self Value.none =
       (Except.ok (Value.str ("Processed JSON data: " ++ pyStr JSONAdapter.read)), self) ∧
     JSONAdapter.process self data =
       (Except.ok (Value.str ("Processed JSON data: " ++ pyStr data)), self)) ∧
    (CSVAdapter.process self Value.none =
       (Except.ok (Value.str ("Processed CSV data: " ++ pyStr CSVAdapter.read)), self) ∧
     CSVAdapter.process self data =
       (Except.ok (Value.str ("Processed CSV data: " ++ pyStr data)), self)) ∧
    (StreamAdapter.process self Value.none =
       (Except.ok (Value.str ("Processed Stream data: " ++ pyStr StreamAdapter.read)), self) ∧
     StreamAdapter.process self data =
       (Except.ok (Value.str ("Processed Stream data: " ++ pyStr data)), self)) := by
  refine ⟨⟨rfl, ?_⟩, ⟨rfl, ?_⟩, ⟨rfl, ?_⟩⟩ <;>
    simp [JSONAdapter.process, CSVAdapter.process, StreamAdapter.process, h]

/-- C1 (witness): the amended statement evaluated at
`JSONAdapter("sensor")` with explicit data `"probe"` and at
`CSVAdapter("transaction")` with `None` data. -/
theorem adapter_process_amended_witness :
    JSONAdapter.process (JSONAdapter.init "sensor") (Value.str "probe") =
      (Except.ok (Value.str "Processed JSON data: probe"), JSONAdapter.init "sensor") ∧
    CSVAdapter.process (CSVAdapter.init "transaction") Value.none =
      (Except.ok (Value.str "Processed CSV data: user,action,timestamp"),
       CSVAdapter.init "transaction") :=
  ⟨(adapter_process_amended (JSONAdapter.init "sensor") (Value.str "probe") rfl).1.2,
   (adapter_process_amended (CSVAdapter.init "transaction") (Value.str "probe") rfl).2.1.1⟩

/-- C2: if some stage of the pipeline raises during `run` — the stages
split as `pre ++ s :: post`, the fold over `pre` succeeds, and `s`
raises `e` — then `run` re-raises exactly `e`, `runs` and `errors` each
increment by exactly 1, and the pipeline's `pipeline_id` and `stages`
are unchanged. -/
theorem run_stage_failure_metrics (p : ProcessingPipeline) (data dk : Value)
    (pre post : List Stage) (s : Stage) (e : PyError)
    (hstages : p.stages = pre ++ s :: post)
    (hpre : runStages pre data = Except.ok dk)
    (hfail : s.process dk = Except.error e) :
    p.run data = (Except.error e,
      { p with metrics := ⟨p.metrics.runs + 1, p.metrics.errors + 1⟩ }) := by
  apply run_of_runStages_error
  rw [hstages, runStages_append_ok pre (s :: post) data dk hpre]
  exact runStages_cons_error s post dk e hfail

/-- C2 (witness): a pipeline holding only the base `Stage` fails on any
input with the base-contract exception; both counters go from 0 to 1. -/
theorem run_stage_failure_metrics_witness :
    ((ProcessingPipeline.init "bad").add_stage Stage.base).run (Value.str "data") =
      (Except.error (PyError.exc "Stage must implement process()"),
       ⟨"bad", [Stage.base], ⟨1, 1⟩⟩) :=
  run_stage_failure_metrics ((ProcessingPipeline.init "bad").add_stage Stage.base)
    (Value.str "data") (Value.str "data") [] [] Stage.base
    (PyError.exc "Stage must implement process()") rfl rfl rfl

/-- C3: if folding the input through the pipeline's stages in
registration order (`runStages`, the sequential fold in list order — and
`add_stage` appends, so list order is insertion order) succeeds with
`r`, then `run` returns `r`, `runs` increments by exactly 1, and
`errors` is unchanged. -/
theorem run_success_folds_stages (p : ProcessingPipeline) (data r : Value)
    (h : runStages p.stages data = Except.ok r) :
    p.run data = (Except.ok r,
      { p with metrics := ⟨p.metrics.runs + 1, p.metrics.errors⟩ }) := by
  simp only [ProcessingPipeline.run, h]

/-- C3 (witness): a Transform-only pipeline on input `"raw_data"`. -/
theorem run_success_folds_stages_witness :
    ((ProcessingPipeline.init "A").add_stage Stage.transform).run (Value.str "raw_data") =
      (Except.ok (Value.dict [("data", Value.str "processed(raw_data)")]),
       ⟨"A", [Stage.transform], ⟨1, 0⟩⟩) :=
  run_success_folds_stages ((ProcessingPipeline.init "A").add_stage Stage.transform)
    (Value.str "raw_data") (Value.dict [("data", Value.str "processed(raw_data)")]) rfl

/-- C4: the invariant `errors ≤ runs` holds at pipeline construction
(both zero) and is preserved by every core operation: `add_stage`,
`run` (success or failure), manager construction, `register_pipeline`,
`execute`, and `chain`; hence it holds for every sequence of these
operations. -/
theorem errors_le_runs_invariant :
    (∀ pipeline_id, metricsInv (ProcessingPipeline.init pipeline_id)) ∧
    (∀ p s, metricsInv p → metricsInv (p.add_stage s)) ∧
    (∀ p data, metricsInv p → metricsInv ((p : ProcessingPipeline).run data).2) ∧
    managerInv NexusManager.init ∧
    (∀ m p, managerInv m → metricsInv p → managerInv (m.register_pipeline p)) ∧
    (∀ m pipeline_id data, managerInv m →
      managerInv ((m : NexusManager).execute pipeline_id data).2) ∧
    (∀ m pipeline_ids data, managerInv m →
      managerInv ((m : NexusManager).chain pipeline_ids data).2) :=
  ⟨fun _ => Nat.le_refl 0,
   fun _ _ h => h,
   fun p data h => run_preserves_metricsInv p data h,
   fun _ _ hp => Option.noConfusion hp,
   fun m p hm hp => register_preserves_managerInv m p hm hp,
   fun m pid data hm => execute_preserves_managerInv m pid data hm,
   fun m pids data hm => chain_preserves_managerInv pids m data hm⟩

/-- C4 (witness): the invariant after each operation on concrete states. -/
theorem errors_le_runs_invariant_witness :
    metricsInv ((ProcessingPipeline.init "p").add_stage Stage.base) ∧
    metricsInv (((ProcessingPipeline.init "p").add_stage Stage.base).run (Value.str "x")).2 ∧
    managerInv (NexusManager.init.register_pipeline (ProcessingPipeline.init "p")) ∧
    managerInv (NexusManager.init.execute "p" (Value.str "x")).2 ∧
    managerInv (NexusManager.init.chain ["p"] (Value.str "x")).2 :=
  ⟨errors_le_runs_invariant.2.1 (ProcessingPipeline.init "p") Stage.base (Nat.le_refl 0),
   errors_le_runs_invariant.2.2.1 ((ProcessingPipeline.init "p").add_stage Stage.base)
     (Value.str "x") (Nat.le_refl 0),
   errors_le_runs_invariant.2.2.2.2.1 NexusManager.init (ProcessingPipeline.init "p")
     (fun _ _ hp => Option.noConfusion hp) (Nat.le_refl 0),
   errors_le_runs_invariant.2.2.2.2.2.1 NexusManager.init "p" (Value.str "x")
     (fun _ _ hp => Option.noConfusion hp),
   errors_le_runs_invariant.2.2.2.2.2.2 NexusManager.init ["p"] (Value.str "x")
     (fun _ _ hp => Option.noConfusion hp)⟩

/-- C5: `execute` on an id absent from the registry fails with a
`KeyError` on that id (the `NotFound` kind of error), propagated
immediately, and leaves the whole manager — in particular `stats` —
unchanged. -/
theorem execute_unregistered_keyerror (m : NexusManager) (pipeline_id : String)
    (data : Value) (h : dictLookup m.pipelines pipeline_id = Option.none) :
    m.execute pipeline_id data = (Except.error (PyError.keyError pipeline_id), m) := by
  simp only [NexusManager.execute, h]

/-- C5 (witness): executing `"missing"` on the empty manager. -/
theorem execute_unregistered_keyerror_witness :
    NexusManager.init.execute "missing" (Value.str "x") =
      (Except.error (PyError.keyError "missing"), NexusManager.init) :=
  execute_unregistered_keyerror NexusManager.init "missing" (Value.str "x") rfl

/-- C6: for a registered id, `execute` increments `stats[id]` only on
successful return: if the pipeline's stage fold raises `e`, the error
propagates before the increment, `stats` is unchanged, and the registry
now holds the pipeline with `runs` (and `errors`) incremented — so
`stats[id]` undercounts failed invocations relative to the pipeline's
own `runs`; on success `stats[id]` increments by exactly 1. -/
theorem execute_stats_only_on_success (m : NexusManager) (pipeline_id : String)
    (p : ProcessingPipeline) (data : Value)
    (hp : dictLookup m.pipelines pipeline_id = some p) :
    (∀ e, runStages p.stages data = Except.error e →
      m.execute pipeline_id data =
        (Except.error e,
         { m with pipelines := (dictSet m.pipelines pipeline_id
             ({ p with metrics := ⟨p.metrics.runs + 1, p.metrics.errors + 1⟩ })) })) ∧
    (∀ r, runStages p.stages data = Except.ok r →
      (m.execute pipeline_id data).1 = Except.ok r ∧
      statsGet (m.execute pipeline_id data).2.stats pipeline_id =
        statsGet m.stats pipeline_id + 1) := by
  constructor
  · intro e he
    simp only [NexusManager.execute, hp, run_of_runStages_error p data e he]
  · intro r hr
    have hex : m.execute pipeline_id data =
        (Except.ok r,
         { pipelines := (dictSet m.pipelines pipeline_id
             ({ p with metrics := ⟨p.metrics.runs + 1, p.metrics.errors⟩ })),
           stats := dictSet m.stats pipeline_id (statsGet m.stats pipeline_id + 1) }) := by
      simp only [NexusManager.execute, hp, run_of_runStages_ok p data r hr]
    rw [hex]
    exact ⟨rfl, statsGet_dictSet_self _ _ _⟩

/-- C6 (witness): a failing execute leaves `stats` empty while the
registered pipeline's counters go to 1; a succeeding execute takes
`stats["A"]` from 0 to 1. -/
theorem execute_stats_only_on_success_witness :
    (NexusManager.init.register_pipeline
        ((ProcessingPipeline.init "bad").add_stage Stage.base)).execute "bad" (Value.str "x") =
      (Except.error (PyError.exc "Stage must implement process()"),
       ⟨[("bad", ⟨"bad", [Stage.base], ⟨1, 1⟩⟩)], []⟩) ∧
    statsGet ((NexusManager.init.register_pipeline
        ((ProcessingPipeline.init "A").add_stage Stage.transform)).execute
          "A" (Value.str "x")).2.stats "A" = 1 :=
  ⟨(execute_stats_only_on_success
      (NexusManager.init.register_pipeline
        ((ProcessingPipeline.init "bad").add_stage Stage.base))
      "bad" ((ProcessingPipeline.init "bad").add_stage Stage.base)
      (Value.str "x") rfl).1 (PyError.exc "Stage must implement process()") rfl,
   ((execute_stats_only_on_success
      (NexusManager.init.register_pipeline
        ((ProcessingPipeline.init "A").add_stage Stage.transform))
      "A" ((ProcessingPipeline.init "A").add_stage Stage.transform)
      (Value.str "x") rfl).2
      (Value.dict [("data", Value.str "processed(x)")]) rfl).2⟩

/-- C7: `chain` executes the ids in order, feeding each step's output to
the next; if the step after the successful prefix `pre` fails with `e`,
the whole chain fails with exactly `e` and its final state is the state
right after that failing step — the ids in `post` are never executed —
and every pipeline id not among the invoked ones keeps its registry
entry (hence its `runs`/`errors`) and its stats entry unchanged; nothing
is rolled back. -/
theorem chain_fails_fast (m m1 m2 : NexusManager) (pre post : List String)
    (pid : String) (data d1 : Value) (e : PyError)
    (h1 : m.chain pre data = (Except.ok d1, m1))
    (h2 : m1.execute pid d1 = (Except.error e, m2)) :
    m.chain (pre ++ pid :: post) data = (Except.error e, m2) ∧
    ∀ q, q ∉ pre → q ≠ pid →
      dictLookup m2.pipelines q = dictLookup m.pipelines q ∧
      statsGet m2.stats q = statsGet m.stats q := by
  constructor
  · rw [chain_append_ok pre (pid :: post) m m1 data d1 h1]
    simp only [NexusManager.chain, h2]
  · intro q hq1 hq2
    have ha := chain_preserves_other pre m data q hq1
    have hb := execute_preserves_other m1 pid q d1 hq2
    rw [h1] at ha
    rw [h2] at hb
    exact ⟨hb.1.trans ha.1, hb.2.trans ha.2⟩

/-- C7 (witness): chaining `["bad", "C"]` fails at `"bad"` with the
base-contract exception; `"C"` (listed after the failing step) keeps its
zeroed counters and absent stats entry. -/
theorem chain_fails_fast_witness :
    errorDemoManager.chain ["bad", "C"] (Value.str "x") =
      (Except.error (PyError.exc "Stage must implement process()"),
       ⟨[("bad", ⟨"bad", [Stage.base], ⟨1, 1⟩⟩),
         ("C", ⟨"C", [Stage.transform], ⟨0, 0⟩⟩)], []⟩) ∧
    dictLookup (⟨[("bad", ⟨"bad", [Stage.base], ⟨1, 1⟩⟩),
         ("C", ⟨"C", [Stage.transform], ⟨0, 0⟩⟩)], []⟩ : NexusManager).pipelines "C" =
      dictLookup errorDemoManager.pipelines "C" ∧
    statsGet (⟨[("bad", ⟨"bad", [Stage.base], ⟨1, 1⟩⟩),
         ("C", ⟨"C", [Stage.transform], ⟨0, 0⟩⟩)], []⟩ : NexusManager).stats "C" =
      statsGet errorDemoManager.stats "C" := by
  have h := chain_fails_fast errorDemoManager errorDemoManager
      (⟨[("bad", ⟨"bad", [Stage.base], ⟨1, 1⟩⟩),
         ("C", ⟨"C", [Stage.transform], ⟨0, 0⟩⟩)], []⟩ : NexusManager)
      [] ["C"] "bad" (Value.str "x") (Value.str "x")
      (PyError.exc "Stage must implement process()") rfl rfl
  have h3 := h.2 "C" (by simp) (by decide)
  exact ⟨h.1, h3.1, h3.2⟩

/-- C8: on the demo manager with Transform-only pipelines "A", "B", "C",
`chain(["A","B","C"], "raw_data")` succeeds and returns the envelope
whose `data` field is `processed(processed(processed(raw_data)))`. -/
theorem chain_three_transforms_demo :
    (demoChainManager.chain ["A", "B", "C"] (Value.str "raw_data")).1 =
      Except.ok (Value.dict [("data",
        Value.str "processed(processed(processed(raw_data)))")]) := rfl

/-- C9: `TransformStage.process` succeeds on every input; given a dict
with a `"data"` field (an envelope) it replaces that field by
`processed(<value>)` and preserves every other field (same key, same
value, e.g. `status`); given anything else it returns the fresh envelope
whose `data` field is `processed(<whole input>)`. -/
theorem transform_process_spec (v : Value) :
    (∃ r, TransformStage.process v = Except.ok r) ∧
    (∀ d value, v = Value.dict d → dictLookup d "data" = some value →
      ∃ d1, TransformStage.process v = Except.ok (Value.dict d1) ∧
        dictLookup d1 "data" = some (Value.str ("processed(" ++ pyStr value ++ ")")) ∧
        ∀ k, k ≠ "data" → dictLookup d1 k = dictLookup d k) ∧
    ((∀ d, v = Value.dict d → dictLookup d "data" = Option.none) →
      TransformStage.process v =
        Except.ok (Value.dict [("data", Value.str ("processed(" ++ pyStr v ++ ")"))])) := by
  refine ⟨?_, ?_, ?_⟩
  · cases v with
    | dict d =>
      cases hl : dictLookup d "data" with
      | none =>
        exact ⟨Value.dict [("data",
          Value.str ("processed(" ++ pyStr (Value.dict d) ++ ")"))],
          by simp [TransformStage.process, hl]⟩
      | some value =>
        exact ⟨Value.dict (dictSet d "data"
          (Value.str ("processed(" ++ pyStr value ++ ")"))),
          by simp [TransformStage.process, hl]⟩
    | none => exact ⟨_, rfl⟩
    | str s => exact ⟨_, rfl⟩
    | numLit s => exact ⟨_, rfl⟩
    | list xs => exact ⟨_, rfl⟩
  · intro d value hv hl
    subst hv
    refine ⟨dictSet d "data" (Value.str ("processed(" ++ pyStr value ++ ")")), ?_, ?_, ?_⟩
    · simp [TransformStage.process, hl]
    · exact dictLookup_dictSet_self _ _ _
    · intro k hk
      exact dictLookup_dictSet_ne _ _ _ _ hk
  · intro hnd
    cases v with
    | dict d =>
      have hl := hnd d rfl
      simp [TransformStage.process, hl]
    | none => rfl
    | str s => rfl
    | numLit s => rfl
    | list xs => rfl

/-- C9 (witness): the envelope branch at
`\x7b"data": "42", "status": "input_ok"\x7d` (with `status` checked
preserved) and the raw-value branch at `"raw"`. -/
theorem transform_process_spec_witness :
    (∃ d1, TransformStage.process (Value.dict [("data", Value.str "42"),
        ("status", Value.str "input_ok")]) = Except.ok (Value.dict d1) ∧
      dictLookup d1 "data" = some (Value.str "processed(42)") ∧
      ∀ k, k ≠ "data" → dictLookup d1 k =
        dictLookup [("data", Value.str "42"), ("status", Value.str "input_ok")] k) ∧
    TransformStage.process (Value.str "raw") =
      Except.ok (Value.dict [("data", Value.str "processed(raw)")]) :=
  ⟨(transform_process_spec (Value.dict [("data", Value.str "42"),
      ("status", Value.str "input_ok")])).2.1
      [("data", Value.str "42"), ("status", Value.str "input_ok")] (Value.str "42") rfl rfl,
   (transform_process_spec (Value.str "raw")).2.2 (fun _ hd => Value.noConfusion hd)⟩

/-- C10: `run` on a pipeline with an empty stage sequence returns the
input unchanged, with `runs` incremented by exactly 1 and `errors`
unchanged. -/
theorem run_empty_stages_identity (p : ProcessingPipeline) (data : Value)
    (h : p.stages = []) :
    p.run data = (Except.ok data,
      { p with metrics := ⟨p.metrics.runs + 1, p.metrics.errors⟩ }) := by
  apply run_of_runStages_ok
  rw [h]
  rfl

/-- C10 (witness): a freshly constructed pipeline has no stages and acts
as the identity on the data. -/
theorem run_empty_stages_identity_witness :
    (ProcessingPipeline.init "empty").run (Value.str "x") =
      (Except.ok (Value.str "x"), ⟨"empty", [], ⟨1, 0⟩⟩) :=
  run_empty_stages_identity (ProcessingPipeline.init "empty") (Value.str "x") rfl

end Nexus
